import Mathlib

/-!
Verification of the hello-mcp-python example server
(examples/hello-mcp-python/server.py).

The server registers two callbacks with an external MCP server object:
the tool registry (list_tools) and the dispatcher (call_tool).  Both are
embedded below as pure Lean functions.  The ambient wall clock read by
datetime.now() is passed to the dispatcher as an explicit argument; a
Python exception escaping the handler (KeyError from a dict subscript,
the raised ValueError) is modelled as the error branch of Except.
-/

/-- A Python value that can appear in a tool-call argument mapping. -/
inductive Value where
  | VStr (s : String)
  | VInt (i : Int)
  | VBool (b : Bool)
  | VNone
deriving DecidableEq

/-- Python str() rendering, as applied by f-string interpolation. -/
def pystr : Value → String
  | .VStr s => s
  | .VInt i => toString i
  | .VBool true => "True"
  | .VBool false => "False"
  | .VNone => "None"

/-- mcp.types.TextContent: the two fields the source sets. -/
structure TextContent where
  type : String
  text : String
deriving DecidableEq

/-- One property entry of a JSON-schema properties object. -/
structure PropSchema where
  type : String
  description : String
deriving DecidableEq

/-- The inputSchema dict of a tool: the time tool's schema has no
required key, hence the Option. -/
structure InputSchema where
  type : String
  properties : List (String × PropSchema)
  required : Option (List String)
deriving DecidableEq

/-- mcp.types.Tool: the three fields the source sets. -/
structure Tool where
  name : String
  description : String
  inputSchema : InputSchema
deriving DecidableEq

/-- A wall-clock instant, as produced by Python datetime.now(). -/
structure DateTime where
  year : Nat
  month : Nat
  day : Nat
  hour : Nat
  minute : Nat
  second : Nat
  microsecond : Nat
deriving DecidableEq

/-- Field ranges every Python datetime instance satisfies. -/
def DateTime.valid (t : DateTime) : Bool :=
  1 ≤ t.year && t.year ≤ 9999 && 1 ≤ t.month && t.month ≤ 12 &&
  1 ≤ t.day && t.day ≤ 31 && t.hour ≤ 23 && t.minute ≤ 59 &&
  t.second ≤ 59 && t.microsecond ≤ 999999

/-- Zero-padded fixed-width decimal rendering, most significant digit
first: the digit at index i from the right is n / 10 ^ i % 10. -/
def padDigits : Nat → Nat → List Char
  | 0, _ => []
  | k+1, n => Char.ofNat (48 + n / 10 ^ k % 10) :: padDigits k n

/-- Characters of datetime.isoformat(): YYYY-MM-DDTHH:MM:SS, followed by
.ffffff exactly when microsecond is nonzero (Python omits the fractional
part when it is zero). -/
def isoChars (t : DateTime) : List Char :=
  padDigits 4 t.year ++ '-' ::
  (padDigits 2 t.month ++ '-' ::
  (padDigits 2 t.day ++ 'T' ::
  (padDigits 2 t.hour ++ ':' ::
  (padDigits 2 t.minute ++ ':' ::
  (padDigits 2 t.second ++
    (if t.microsecond = 0 then [] else '.' :: padDigits 6 t.microsecond))))))

/-- datetime.isoformat() as a string. -/
def DateTime.isoformat (t : DateTime) : String := String.mk (isoChars t)

/-- A Python exception escaping the handler. -/
inductive PyErr where
  | keyError (key : String)
  | valueError (msg : String)
deriving DecidableEq

/-- Python dict lookup on an argument mapping (string keys, first match). -/
def lookupArg : List (String × Value) → String → Option Value
  | [], _ => none
  | (k, v) :: rest, key => if k = key then some v else lookupArg rest key

/-- server.py list_tools: the static registry of the two tools, with the
names, descriptions and input schemas the source declares. -/
def list_tools : List Tool :=
  [ ⟨"hello", "Say hello to someone",
      ⟨"object", [("name", ⟨"string", "The name to greet"⟩)], some ["name"]⟩⟩,
    ⟨"time", "Get the current time",
      ⟨"object", [], none⟩⟩ ]

/-- server.py call_tool: dispatch on the tool name.  The hello branch
reads arguments "name" with a dict subscript, so a missing key surfaces
as KeyError; the time branch formats the clock passed as now; any other
name raises ValueError with the offending name in the message. -/
def call_tool (now : DateTime) (name : String) (arguments : List (String × Value)) :
    Except PyErr (List TextContent) :=
  if name = "hello" then
    match lookupArg arguments "name" with
    | some v => .ok [⟨"text", "Hello, " ++ pystr v ++ "! Welcome to MCP."⟩]
    | none => .error (.keyError "name")
  else if name = "time" then
    .ok [⟨"text", "Current time: " ++ now.isoformat⟩]
  else
    .error (.valueError ("Unknown tool: " ++ name))

/-- Consume exactly k decimal digits, accumulating their value onto acc. -/
def parseDigits : Nat → Nat → List Char → Option (Nat × List Char)
  | acc, 0, cs => some (acc, cs)
  | _, _+1, [] => none
  | acc, k+1, c :: cs =>
    if 48 ≤ c.toNat ∧ c.toNat ≤ 57 then parseDigits (acc * 10 + (c.toNat - 48)) k cs
    else none

/-- Consume one expected literal character. -/
def expectChar (c : Char) : List Char → Option (List Char)
  | [] => none
  | x :: xs => if x = c then some xs else none

/-- Parse the optional fractional-seconds part: either nothing (microsecond
zero) or a dot followed by six digits. -/
def parseFrac : List Char → Option (Nat × List Char)
  | [] => some (0, [])
  | '.' :: cs2 => parseDigits 0 6 cs2
  | _ => none

/-- Parse an ISO-8601 date-time of the shape datetime.isoformat() emits
(fractional seconds optional), checking the calendar-field ranges. -/
def parseIso (cs : List Char) : Option DateTime := do
  let (y, cs) ← parseDigits 0 4 cs
  let cs ← expectChar '-' cs
  let (mo, cs) ← parseDigits 0 2 cs
  let cs ← expectChar '-' cs
  let (d, cs) ← parseDigits 0 2 cs
  let cs ← expectChar 'T' cs
  let (h, cs) ← parseDigits 0 2 cs
  let cs ← expectChar ':' cs
  let (mi, cs) ← parseDigits 0 2 cs
  let cs ← expectChar ':' cs
  let (s, cs) ← parseDigits 0 2 cs
  let (us, cs) ← parseFrac cs
  let t : DateTime := ⟨y, mo, d, h, mi, s, us⟩
  if cs = [] ∧ t.valid then some t else none

/-- String-level ISO-8601 parse. -/
def parseIsoString (s : String) : Option DateTime := parseIso s.data

/-- A concrete clock instant used to instantiate universally quantified
theorems at a sample input. -/
def sampleNow : DateTime := ⟨2026, 10, 12, 8, 30, 5, 123456⟩

/-- A decimal digit character has the toNat its code point says. -/
theorem toNat_digitChar (d : Nat) (h : d < 10) : (Char.ofNat (48 + d)).toNat = 48 + d := by
  interval_cases d <;> decide

/-- Parsing k digits off a k-wide padded rendering recovers the value
modulo 10 ^ k and leaves the rest of the input untouched. -/
theorem parseDigits_padDigits (k : Nat) : ∀ acc n rest,
    parseDigits acc k (padDigits k n ++ rest) = some (acc * 10 ^ k + n % 10 ^ k, rest) := by
  induction k with
  | zero => intro acc n rest; simp [padDigits, parseDigits, Nat.mod_one]
  | succ k ih =>
    intro acc n rest
    have hd : n / 10 ^ k % 10 < 10 := Nat.mod_lt _ (by norm_num)
    have hc := toNat_digitChar _ hd
    simp only [padDigits, List.cons_append, parseDigits, hc, List.append_eq]
    rw [if_pos (by omega)]
    have hsub : 48 + n / 10 ^ k % 10 - 48 = n / 10 ^ k % 10 := by omega
    rw [hsub, ih]
    congr 2
    rw [pow_succ, Nat.mod_mul]
    ring

/-- Specialization of parseDigits_padDigits to an empty remainder. -/
theorem parseDigits_padDigits_nil (k acc n : Nat) :
    parseDigits acc k (padDigits k n) = some (acc * 10 ^ k + n % 10 ^ k, []) := by
  have h := parseDigits_padDigits k acc n []
  simpa using h

/-- Equation: an empty fractional part parses as microsecond 0. -/
theorem parseFrac_nil : parseFrac [] = some (0, []) := rfl

/-- Equation: a dot starts a six-digit fractional part. -/
theorem parseFrac_dot (cs : List Char) : parseFrac ('.' :: cs) = parseDigits 0 6 cs := rfl

set_option maxHeartbeats 2000000 in
/-- Round trip: the characters isoformat produces for a valid instant
parse back to exactly that instant. -/
theorem parseIso_isoChars (t : DateTime) (h : t.valid = true) :
    parseIso (isoChars t) = some t := by
  have hb := h
  unfold DateTime.valid at hb
  simp only [Bool.and_eq_true, decide_eq_true_eq] at hb
  obtain ⟨⟨⟨⟨⟨⟨⟨⟨⟨hy1, hy2⟩, hm1⟩, hm2⟩, hd1⟩, hd2⟩, hh⟩, hmi⟩, hs⟩, hus⟩ := hb
  have ey : t.year % 10000 = t.year := Nat.mod_eq_of_lt (by omega)
  have emo : t.month % 100 = t.month := Nat.mod_eq_of_lt (by omega)
  have ed : t.day % 100 = t.day := Nat.mod_eq_of_lt (by omega)
  have eh : t.hour % 100 = t.hour := Nat.mod_eq_of_lt (by omega)
  have emi : t.minute % 100 = t.minute := Nat.mod_eq_of_lt (by omega)
  have es : t.second % 100 = t.second := Nat.mod_eq_of_lt (by omega)
  have eus : t.microsecond % 1000000 = t.microsecond := Nat.mod_eq_of_lt (by omega)
  by_cases hz : t.microsecond = 0
  · have ht : (⟨t.year, t.month, t.day, t.hour, t.minute, t.second, 0⟩ : DateTime) = t := by
      rw [← hz]
    simp [parseIso, isoChars, parseDigits_padDigits, parseDigits_padDigits_nil,
      expectChar, parseFrac_nil, ey, emo, ed, eh, emi, es, hz, ht, h]
  · have ht : (⟨t.year, t.month, t.day, t.hour, t.minute, t.second, t.microsecond⟩ : DateTime) = t := rfl
    simp [parseIso, isoChars, parseDigits_padDigits, parseDigits_padDigits_nil,
      expectChar, parseFrac_dot, ey, emo, ed, eh, emi, es, eus, hz, ht, h]

/-- C1: dispatching name "hello" with a string value n bound to key "name"
returns exactly one text content item whose text is
"Hello, " ++ n ++ "! Welcome to MCP.". -/
theorem hello_greets_string (now : DateTime) (args : List (String × Value)) (n : String)
    (h : lookupArg args "name" = some (.VStr n)) :
    call_tool now "hello" args = .ok [⟨"text", "Hello, " ++ n ++ "! Welcome to MCP."⟩] := by
  simp [call_tool, h, pystr]

/-- Witness for C1 at arguments binding "name" to "Ada". -/
theorem hello_greets_string_witness :
    call_tool sampleNow "hello" [("name", .VStr "Ada")] =
      .ok [⟨"text", "Hello, Ada! Welcome to MCP."⟩] :=
  hello_greets_string sampleNow [("name", .VStr "Ada")] "Ada" (by decide)

/-- C2: the dispatcher fails with a ValueError whose message contains the
offending name exactly when the requested name matches neither registered
tool ("hello" and "time"). -/
theorem unknown_tool_characterization (now : DateTime) (name : String)
    (args : List (String × Value)) :
    (name ≠ "hello" ∧ name ≠ "time") ↔
      ∃ msg, call_tool now name args = .error (.valueError msg) ∧
        ∃ pre post, msg = pre ++ name ++ post := by
  constructor
  · rintro ⟨h1, h2⟩
    exact ⟨"Unknown tool: " ++ name, by simp [call_tool, h1, h2], "Unknown tool: ", "", by simp⟩
  · rintro ⟨msg, hmsg, -⟩
    constructor
    · intro h1
      subst h1
      rcases hlk : lookupArg args "name" with _ | v <;> simp [call_tool, hlk] at hmsg
    · intro h2
      subst h2
      simp [call_tool] at hmsg

/-- C3: the registry enumeration returns exactly two descriptors, named
"hello" then "time" in that order, each with a non-empty description. -/
theorem list_tools_two_descriptors :
    list_tools.length = 2 ∧ list_tools.map Tool.name = ["hello", "time"] ∧
      ∀ t ∈ list_tools, t.description ≠ "" := by
  decide

/-- C4: with no "name" key in the arguments, the hello branch of the
dispatcher surfaces a raw Python KeyError from the dict subscript, not a
defined missing-required-argument error. -/
theorem hello_missing_name_keyerror (now : DateTime) (args : List (String × Value))
    (h : lookupArg args "name" = none) :
    call_tool now "hello" args = .error (.keyError "name") := by
  simp [call_tool, h]

/-- Witness for C4 at the empty argument mapping. -/
theorem hello_missing_name_keyerror_witness :
    call_tool sampleNow "hello" [] = .error (.keyError "name") :=
  hello_missing_name_keyerror sampleNow [] (by decide)

/-- C5: dispatching name "time" succeeds for every argument mapping,
ignores the arguments, and returns exactly one text item of the form
"Current time: " ++ the ISO-8601 rendering of the clock instant, and that
rendering parses back as a valid date-time (to the same instant). -/
theorem time_tool_ok (now : DateTime) (args : List (String × Value))
    (h : now.valid = true) :
    call_tool now "time" args = .ok [⟨"text", "Current time: " ++ now.isoformat⟩] ∧
    parseIsoString now.isoformat = some now := by
  refine ⟨by simp [call_tool], ?_⟩
  simpa [parseIsoString, DateTime.isoformat] using parseIso_isoChars now h

/-- Witness for C5 at a concrete clock instant and empty arguments. -/
theorem time_tool_ok_witness :
    call_tool sampleNow "time" [] =
      .ok [⟨"text", "Current time: " ++ sampleNow.isoformat⟩] ∧
    parseIsoString sampleNow.isoformat = some sampleNow :=
  time_tool_ok sampleNow [] (by decide)

/-- C6: any name on which the dispatcher does not raise the unknown-tool
ValueError is the name of a descriptor in the registry. -/
theorem dispatched_names_registered (now : DateTime) (name : String)
    (args : List (String × Value))
    (h : call_tool now name args ≠ .error (.valueError ("Unknown tool: " ++ name))) :
    name ∈ list_tools.map Tool.name := by
  by_cases h1 : name = "hello"
  · subst h1; simp [list_tools]
  · by_cases h2 : name = "time"
    · subst h2; simp [list_tools]
    · exact absurd (by simp [call_tool, h1, h2]) h

/-- Witness for C6 at name "hello". -/
theorem dispatched_names_registered_witness :
    "hello" ∈ list_tools.map Tool.name :=
  dispatched_names_registered sampleNow "hello" []
    (by intro hcontra; simp [call_tool, lookupArg] at hcontra)

/-- C7: the hello branch is deterministic: with identical argument
mappings containing key "name", two calls return identical results,
whatever the ambient clock reads. -/
theorem hello_deterministic (now1 now2 : DateTime) (args : List (String × Value))
    (v : Value) (h : lookupArg args "name" = some v) :
    call_tool now1 "hello" args = call_tool now2 "hello" args := by
  simp [call_tool, h]

/-- Witness for C7 at two different clock instants. -/
theorem hello_deterministic_witness :
    call_tool sampleNow "hello" [("name", .VStr "Ada")] =
      call_tool ⟨2027, 1, 2, 3, 4, 5, 6⟩ "hello" [("name", .VStr "Ada")] :=
  hello_deterministic sampleNow ⟨2027, 1, 2, 3, 4, 5, 6⟩ [("name", .VStr "Ada")]
    (.VStr "Ada") (by decide)

/-- C8: the registry enumeration is a constant of no inputs: it always
returns this same fixed ordered sequence of descriptors (so any two
invocations agree), and it has no failure branch. -/
theorem list_tools_constant :
    list_tools =
      [ ⟨"hello", "Say hello to someone",
          ⟨"object", [("name", ⟨"string", "The name to greet"⟩)], some ["name"]⟩⟩,
        ⟨"time", "Get the current time", ⟨"object", [], none⟩⟩ ] := rfl

/-- C9: noninterference of extra arguments: two argument mappings that
bind "name" to the same value yield identical hello results, however the
other keys differ. -/
theorem hello_extra_args_noninterference (now : DateTime)
    (a1 a2 : List (String × Value)) (v : Value)
    (h1 : lookupArg a1 "name" = some v) (h2 : lookupArg a2 "name" = some v) :
    call_tool now "hello" a1 = call_tool now "hello" a2 := by
  simp [call_tool, h1, h2]

/-- Witness for C9 at two mappings differing on every key but "name". -/
theorem hello_extra_args_noninterference_witness :
    call_tool sampleNow "hello" [("name", .VStr "Ada"), ("x", .VInt 1)] =
      call_tool sampleNow "hello" [("y", .VBool true), ("name", .VStr "Ada")] :=
  hello_extra_args_noninterference sampleNow
    [("name", .VStr "Ada"), ("x", .VInt 1)] [("y", .VBool true), ("name", .VStr "Ada")]
    (.VStr "Ada") (by decide) (by decide)

/-- C10: the dispatcher performs no schema validation: any value bound to
"name" (of any modelled Python type) makes hello succeed with the str()
rendering of that value interpolated, although the declared input schema
marks "name" required with type string. -/
theorem hello_no_schema_validation (now : DateTime) (args : List (String × Value))
    (v : Value) (h : lookupArg args "name" = some v) :
    call_tool now "hello" args =
      .ok [⟨"text", "Hello, " ++ pystr v ++ "! Welcome to MCP."⟩] ∧
    ∃ t ∈ list_tools, t.name = "hello" ∧ t.inputSchema.required = some ["name"] ∧
      ("name", ⟨"string", "The name to greet"⟩) ∈ t.inputSchema.properties := by
  refine ⟨by simp [call_tool, h], ⟨"hello", "Say hello to someone",
    ⟨"object", [("name", ⟨"string", "The name to greet"⟩)], some ["name"]⟩⟩,
    by simp [list_tools], rfl, rfl, by simp⟩

/-- Witness for C10 at a non-string (integer) value for "name". -/
theorem hello_no_schema_validation_witness :
    call_tool sampleNow "hello" [("name", .VInt 42)] =
      .ok [⟨"text", "Hello, 42! Welcome to MCP."⟩] ∧
    ∃ t ∈ list_tools, t.name = "hello" ∧ t.inputSchema.required = some ["name"] ∧
      ("name", ⟨"string", "The name to greet"⟩) ∈ t.inputSchema.properties :=
  hello_no_schema_validation sampleNow [("name", .VInt 42)] (.VInt 42) (by decide)
